import Mathlib

/-!
Verification of the session/call/buffer execution model of the two-device
runtime demo (`src/runtime/src/iree/runtime/demo/hello_world_two_devices.c`).

The repository source contains only the demo driver; the runtime and HAL
operations it calls (`iree_runtime_*`, `iree_hal_*`) are declared elsewhere.
Those operations are therefore modelled from the specification (sections 4-7),
as a state-passing semantics over an explicit reference-count heap, while the
demo driver itself is embedded call for call from the C source.

Float32 element values are modelled as exact rationals: the specification
states all buffer contents as exact decimal values.
-/

namespace IREE

/-- Error kinds of the runtime API, from specification section 7. -/
inductive ErrorKind where
  | notFound
  | invalidArgument
  | sizeMismatch
  | formatError
  | resourceExhausted
  | timedOut
  | internal
deriving DecidableEq, Repr

/-- Element types of buffer views (numeric kind plus bit width). The demo
uses `IREE_HAL_ELEMENT_TYPE_FLOAT_32`. -/
inductive ElementType where
  | float32
  | float64
  | sint32
  | sint8
deriving DecidableEq, Repr

/-- Size in bytes of one element of the given type. -/
def ElementType.byteSize : ElementType → Nat
  | .float32 => 4
  | .float64 => 8
  | .sint32 => 4
  | .sint8 => 1

/-- Buffer encodings; the demo uses `IREE_HAL_ENCODING_TYPE_DENSE_ROW_MAJOR`. -/
inductive EncodingType where
  | denseRowMajor
deriving DecidableEq, Repr

/-- Memory type of a buffer allocation (specification section 6). -/
inductive MemoryType where
  | deviceLocal
  | hostVisible
deriving DecidableEq, Repr

/-- Permitted access of a buffer allocation (specification section 6). -/
inductive MemoryAccess where
  | read
  | write
  | all
deriving DecidableEq, Repr

/-- Usage of a buffer allocation (specification section 6). -/
inductive BufferUsage where
  | default
  | transferOptimized
deriving DecidableEq, Repr

/-- Buffer parameters, mirroring `iree_hal_buffer_params_t` as used by the
demo (memory type, access, usage). -/
structure BufferParams where
  type : MemoryType
  access : MemoryAccess
  usage : BufferUsage
deriving DecidableEq, Repr

/-- Timeout argument of blocking transfers: a duration with a distinguished
infinite sentinel (specification section 6). -/
inductive TimeoutSpec where
  | infinite
  | millis (n : Nat)
deriving DecidableEq, Repr

/-- The infinite-timeout sentinel `iree_infinite_timeout()`. -/
def iree_infinite_timeout : TimeoutSpec := .infinite

/-- Default transfer flags `IREE_HAL_TRANSFER_BUFFER_FLAG_DEFAULT`. -/
def IREE_HAL_TRANSFER_BUFFER_FLAG_DEFAULT : Nat := 0

/-- Modelled from the spec: reference-count heap shared by all runtime
objects (Devices and Buffer Views are reference-counted per sections 3 and
4.4); `refcount i` is the live reference count of the object with id `i`,
and `nextId` the next fresh object id. -/
structure RtState where
  refcount : Nat → Nat
  nextId : Nat

/-- Pointwise update of a reference-count table. -/
def setCount (f : Nat → Nat) (i v : Nat) : Nat → Nat :=
  fun j => if j = i then v else f j

/-- The empty heap: no object allocated yet. -/
def RtState.initial : RtState := ⟨fun _ => 0, 0⟩

/-- Retain one more reference to object `i`. -/
def retainId (st : RtState) (i : Nat) : RtState :=
  { st with refcount := setCount st.refcount i (st.refcount i + 1) }

/-- Release one reference to object `i`. -/
def releaseId (st : RtState) (i : Nat) : RtState :=
  { st with refcount := setCount st.refcount i (st.refcount i - 1) }

/-- Allocate a fresh object id with reference count one. -/
def allocId (st : RtState) : Nat × RtState :=
  (st.nextId, ⟨setCount st.refcount st.nextId 1, st.nextId + 1⟩)

/-- An object is live while it still has a positive reference count. -/
def RtState.isLive (st : RtState) (i : Nat) : Prop := 0 < st.refcount i

/-- Modelled from the spec: a Device handle (section 3) — a reference-counted
object identified by `id`, resolved from a backend name such as
"local-task" or "hip". -/
structure Device where
  id : Nat
  backend : String
deriving DecidableEq, Repr

/-- Modelled from the spec: the process-wide Instance (section 4.1), which
owns the registry of available device backends. -/
structure RuntimeInstance where
  drivers : List String

/-- Modelled from the spec: `try_create_default_device(name)` (section 4.1)
resolves a backend by logical name; an unavailable backend yields a
recoverable `NotFound` error and leaves the heap untouched, otherwise a
fresh Device handle is returned with one reference owned by the caller. -/
def iree_runtime_instance_try_create_default_device (st : RtState)
    (inst : RuntimeInstance) (name : String) :
    (Except ErrorKind Device) × RtState :=
  if name ∈ inst.drivers then
    let (i, st1) := allocId st
    (.ok ⟨i, name⟩, st1)
  else
    (.error .notFound, st)

/-- Release the caller's reference to a device (`iree_hal_device_release`). -/
def iree_hal_device_release (st : RtState) (d : Device) : RtState :=
  releaseId st d.id

/-- A typed, shaped descriptor over device-resident storage (specification
section 3): element type, dense row-major shape, a device binding, and the
stored element values; `id` identifies the reference-counted storage. -/
structure BufferView where
  id : Nat
  device : Nat
  shape : List Nat
  elementType : ElementType
  storage : List ℚ
deriving DecidableEq, Repr

/-- Allocation size in bytes of a buffer view: element count (product of the
shape dimensions) times element byte size. -/
def BufferView.byteSize (bv : BufferView) : Nat :=
  bv.shape.prod * bv.elementType.byteSize

/-- A host-memory byte span handed to the runtime: the decoded element
values together with the raw length in bytes (`iree_make_const_byte_span`
pairs a pointer with a byte length). -/
structure HostSpan where
  values : List ℚ
  byteLength : Nat
deriving DecidableEq, Repr

/-- Construct a host byte span from element values and a byte length. -/
def iree_make_const_byte_span (values : List ℚ) (byteLength : Nat) : HostSpan :=
  ⟨values, byteLength⟩

/-- A host span is well-formed for an element type when its byte length is
exactly its element count times the element size. -/
def HostSpan.wf (s : HostSpan) (et : ElementType) : Prop :=
  s.values.length * et.byteSize = s.byteLength

/-- Modelled from the spec: `allocate_buffer_copy` (section 4.4) sizes device
storage to `shape x element_type`, requires the host data byte length to
equal that computed size exactly (else `SizeMismatch`, allocating nothing),
and on success copies the host data into fresh storage owned by the caller
with one reference. -/
def iree_hal_buffer_view_allocate_buffer_copy (st : RtState) (device : Device)
    (allocator : Device) (shape : List Nat) (element_type : ElementType)
    (encoding : EncodingType) (params : BufferParams) (host_data : HostSpan) :
    (Except ErrorKind BufferView) × RtState :=
  if host_data.byteLength = shape.prod * element_type.byteSize then
    let (i, st1) := allocId st
    (.ok ⟨i, device.id, shape, element_type, host_data.values⟩, st1)
  else
    (.error .sizeMismatch, st)

/-- Release the caller's reference to a buffer view
(`iree_hal_buffer_view_release`). -/
def iree_hal_buffer_view_release (st : RtState) (bv : BufferView) : RtState :=
  releaseId st bv.id

/-- Modelled from the spec: `device_to_host` transfer (section 4.5) —
synchronously copies `data_length` bytes starting at `source_offset` out of
the buffer's storage into host memory. The buffer must still be live, be
bound to the transferring device, and the requested region must lie within
its storage. -/
def iree_hal_device_transfer_d2h (st : RtState) (device : Device)
    (bv : BufferView) (source_offset : Nat) (data_length : Nat)
    (flags : Nat) (timeout : TimeoutSpec) : Except ErrorKind HostSpan :=
  if 0 < st.refcount bv.id then
    if bv.device = device.id then
      if source_offset + data_length ≤ bv.byteSize then
        .ok ⟨(bv.storage.drop (source_offset / bv.elementType.byteSize)).take
              (data_length / bv.elementType.byteSize), data_length⟩
      else .error .invalidArgument
    else .error .invalidArgument
  else .error .invalidArgument

/-- Modelled from the spec: a resolved function signature (sections 4.3 and
9) — declared argument and result shapes/types plus the function's
semantics; `impl` returning `none` models a backend execution fault. -/
structure FuncSig where
  args : List (List Nat × ElementType)
  rets : List (List Nat × ElementType)
  impl : List (List ℚ) → Option (List (List ℚ))

/-- Modelled from the spec: an opaque module blob (section 6) as seen through
the Module Loader collaborator: a validity flag and the exported
name-to-function table. -/
structure ModuleBlob where
  wellFormed : Bool
  exports : List (String × FuncSig)

/-- Modelled from the spec: a Session (section 4.2) bound to exactly one
Device at creation, owning the loaded export table. -/
structure Session where
  device : Device
  exports : List (String × FuncSig)

/-- Modelled from the spec: `Session.create` (section 4.2) binds the new
session to the given device and retains its own device reference, so the
caller may release its handle afterwards. -/
def iree_runtime_session_create_with_device (st : RtState)
    (inst : RuntimeInstance) (device : Device) :
    (Except ErrorKind Session) × RtState :=
  (.ok ⟨device, []⟩, retainId st device.id)

/-- Accessor for the session's bound device (`iree_runtime_session_device`). -/
def iree_runtime_session_device (s : Session) : Device := s.device

/-- Accessor for the bound device's allocator
(`iree_runtime_session_device_allocator`); the allocator is a pass-through
view of the device. -/
def iree_runtime_session_device_allocator (s : Session) : Device := s.device

/-- Modelled from the spec: `load_module` (section 4.2) parses and registers
an in-memory module, failing with a format/validation error on a malformed
blob or an export-name collision. -/
def iree_runtime_session_append_bytecode_module_from_memory (s : Session)
    (m : ModuleBlob) : Except ErrorKind Session :=
  if m.wellFormed && m.exports.all (fun e => s.exports.all (fun f => f.fst != e.fst)) then
    .ok { s with exports := s.exports ++ m.exports }
  else
    .error .formatError

/-- Releasing a session releases the device reference it retained
(specification section 3). -/
def iree_runtime_session_release (st : RtState) (s : Session) : RtState :=
  releaseId st s.device.id

/-- Modelled from the spec: a Call (section 4.3) — the session's bound
device, the resolved function, the append-only input list, the output list
populated by invoke, and whether invoke already ran. -/
structure Call where
  device : Nat
  sig : FuncSig
  inputs : List BufferView
  outputs : List BufferView
  invoked : Bool

/-- Modelled from the spec: `initialize_by_name` (section 4.3) resolves the
function name against the session's loaded exports, failing with `NotFound`
when no export matches. -/
def iree_runtime_call_initialize_by_name (s : Session) (name : String) :
    Except ErrorKind Call :=
  match s.exports.find? (fun e => e.fst == name) with
  | some e => .ok ⟨s.device.id, e.snd, [], [], false⟩
  | none => .error .notFound

/-- Modelled from the spec: `push_input` (section 4.3) appends a buffer view
to the input list, retaining a reference for the call machinery; it fails if
the call was already invoked or if the view's device does not match the
session's bound device (cross-device arguments must be relayed). -/
def iree_runtime_call_inputs_push_back_buffer_view (st : RtState) (c : Call)
    (bv : BufferView) : (Except ErrorKind Unit) × Call × RtState :=
  if c.invoked then
    (.error .invalidArgument, c, st)
  else if bv.device = c.device then
    (.ok (), { c with inputs := c.inputs ++ [bv] }, retainId st bv.id)
  else
    (.error .invalidArgument, c, st)

/-- Check the pushed inputs against the function's declared argument
shapes and element types, positionally. -/
def sigMatches : List BufferView → List (List Nat × ElementType) → Bool
  | [], [] => true
  | bv :: bs, a :: as_ => bv.shape == a.fst && bv.elementType == a.snd && sigMatches bs as_
  | _, _ => false

/-- Allocate one fresh device-resident buffer view per function result,
each owned by the call with one reference. -/
def allocOutputs : RtState → Nat → List ((List Nat × ElementType) × List ℚ) →
    List BufferView × RtState
  | st, _, [] => ([], st)
  | st, dev, (r, vals) :: rest =>
    let (i, st1) := allocId st
    let (bvs, st2) := allocOutputs st1 dev rest
    (⟨i, dev, r.fst, r.snd, vals⟩ :: bvs, st2)

/-- Modelled from the spec: `invoke` (section 4.3) runs the resolved function
over the inputs in pushed order; an argument count/shape/type mismatch fails
with `InvalidArgument` and a backend fault with `Internal`, in both cases
populating no outputs; on success the outputs are materialized in
function-declared order. -/
def iree_runtime_call_invoke (st : RtState) (c : Call) (flags : Nat) :
    (Except ErrorKind Unit) × Call × RtState :=
  if sigMatches c.inputs c.sig.args then
    match c.sig.impl (c.inputs.map (fun bv => bv.storage)) with
    | none => (.error .internal, c, st)
    | some rs =>
      let (outs, st1) := allocOutputs st c.device (c.sig.rets.zip rs)
      (.ok (), { c with outputs := outs, invoked := true }, st1)
  else
    (.error .invalidArgument, c, st)

/-- Modelled from the spec: `pop_output` (section 4.3) removes and returns
the first unconsumed output, transferring its reference to the caller;
popping past the populated outputs fails with `ResourceExhausted`. -/
def iree_runtime_call_outputs_pop_front_buffer_view (st : RtState) (c : Call) :
    (Except ErrorKind BufferView) × Call × RtState :=
  match c.outputs with
  | [] => (.error .resourceExhausted, c, st)
  | o :: rest => (.ok o, { c with outputs := rest }, st)

/-- Release one reference for every buffer view in the list. -/
def releaseAll : RtState → List BufferView → RtState
  | st, [] => st
  | st, bv :: rest => releaseAll (releaseId st bv.id) rest

/-- Modelled from the spec: `deinitialize` (section 4.3) releases the
input/output references still retained by the call — inputs never consumed
and outputs never popped; references already transferred out by
`pop_output` are untouched. -/
def iree_runtime_call_deinitialize (st : RtState) (c : Call) : RtState :=
  releaseAll st (c.inputs ++ c.outputs)

/-- Iterate `pop_output` a given number of times, collecting each outcome in
order. -/
def popAll : RtState → Call → Nat → List (Except ErrorKind BufferView) × Call × RtState
  | st, c, 0 => ([], c, st)
  | st, c, n + 1 =>
    let (r, c1, st1) := iree_runtime_call_outputs_pop_front_buffer_view st c
    let (rs, c2, st2) := popAll st1 c1 n
    (r :: rs, c2, st2)

/-- Element-wise multiplication of two tensors, the semantics of
`@simple_mul(%arg0: tensor<4xf32>, %arg1: tensor<4xf32>) -> tensor<4xf32>`
declared in the demo source; any other argument list is a fault. -/
def simple_mul_impl : List (List ℚ) → Option (List (List ℚ))
  | [a, b] => some [List.zipWith (fun x y => x * y) a b]
  | _ => none

/-- Signature of `simple_mul`: two `tensor<4xf32>` arguments, one
`tensor<4xf32>` result. -/
def simple_mul_sig : FuncSig :=
  ⟨[([4], .float32), ([4], .float32)], [([4], .float32)], simple_mul_impl⟩

/-- Modelled from the spec: the compiled module blob embedded by the demo
(`simple_mul_module_c.h` is not under src/), exporting
`module.simple_mul`. -/
def iree_runtime_demo_simple_mul_module_create : ModuleBlob :=
  ⟨true, [("module.simple_mul", simple_mul_sig)]⟩

/-- Modelled from the spec: the HIP variant of the compiled module blob
(`simple_mul_module_hip_c.h` is not under src/), exporting the same
`module.simple_mul` element-wise multiplication. -/
def iree_runtime_demo_simple_mul_module_hip_create : ModuleBlob :=
  ⟨true, [("module.simple_mul", simple_mul_sig)]⟩

/-- Modelled from the spec: an instance whose registry has both backends the
demo requests available ("local-task" and "hip"), as in a build where the
demo's device creation succeeds. -/
def demo_instance : RuntimeInstance := ⟨["local-task", "hip"]⟩

/-- Buffer parameters used by every demo allocation: device-local memory,
all access, default usage. -/
def demo_buffer_params : BufferParams := ⟨.deviceLocal, .all, .default⟩

/-- The demo's dual-device pipeline `iree_runtime_demo_perform_mul_dual`,
embedded call for call from the C source (lines 103-258): CPU call over
`arg0 = [1.0, 1.1, 1.2, 1.3]` and `arg1 = [10, 100, 1000, 10000]`, pop and
device-to-host transfer of the result, re-allocation on the HIP device,
HIP call against `arg2 = [2000, 200, 20, 2]`, and final read-back. Returns
the relayed CPU result bytes and the final host read-back values. -/
def iree_runtime_demo_perform_mul_dual (st0 : RtState)
    (cpu_session hip_session : Session) :
    (Except ErrorKind (List ℚ × List ℚ)) × RtState :=
  match iree_runtime_call_initialize_by_name cpu_session "module.simple_mul" with
  | .error e => (.error e, st0)
  | .ok call0 =>
  match iree_runtime_call_initialize_by_name hip_session "module.simple_mul" with
  | .error e => (.error e, st0)
  | .ok hip_call0 =>
  match iree_hal_buffer_view_allocate_buffer_copy st0
      (iree_runtime_session_device cpu_session)
      (iree_runtime_session_device_allocator cpu_session)
      [4] .float32 .denseRowMajor demo_buffer_params
      (iree_make_const_byte_span [1, 11/10, 6/5, 13/10] 16) with
  | (.error e, st) => (.error e, st)
  | (.ok arg0, st1) =>
  match iree_runtime_call_inputs_push_back_buffer_view st1 call0 arg0 with
  | (.error e, _, st) => (.error e, st)
  | (.ok _, call1, st2) =>
  let st3 := iree_hal_buffer_view_release st2 arg0
  match iree_hal_buffer_view_allocate_buffer_copy st3
      (iree_runtime_session_device cpu_session)
      (iree_runtime_session_device_allocator cpu_session)
      [4] .float32 .denseRowMajor demo_buffer_params
      (iree_make_const_byte_span [10, 100, 1000, 10000] 16) with
  | (.error e, st) => (.error e, st)
  | (.ok arg1, st4) =>
  match iree_runtime_call_inputs_push_back_buffer_view st4 call1 arg1 with
  | (.error e, _, st) => (.error e, st)
  | (.ok _, call2, st5) =>
  let st6 := iree_hal_buffer_view_release st5 arg1
  match iree_runtime_call_invoke st6 call2 0 with
  | (.error e, _, st) => (.error e, st)
  | (.ok _, call3, st7) =>
  match iree_runtime_call_outputs_pop_front_buffer_view st7 call3 with
  | (.error e, _, st) => (.error e, st)
  | (.ok ret0_out, call4, st8) =>
  let st9 := iree_runtime_call_deinitialize st8 call4
  match iree_hal_device_transfer_d2h st9 (iree_runtime_session_device cpu_session)
      ret0_out 0 16 IREE_HAL_TRANSFER_BUFFER_FLAG_DEFAULT iree_infinite_timeout with
  | .error e => (.error e, st9)
  | .ok ret0_data =>
  match iree_hal_buffer_view_allocate_buffer_copy st9
      (iree_runtime_session_device hip_session)
      (iree_runtime_session_device_allocator hip_session)
      [4] .float32 .denseRowMajor demo_buffer_params ret0_data with
  | (.error e, st) => (.error e, st)
  | (.ok ret0, st10) =>
  match iree_runtime_call_inputs_push_back_buffer_view st10 hip_call0 ret0 with
  | (.error e, _, st) => (.error e, st)
  | (.ok _, hip_call1, st11) =>
  let st12 := iree_hal_buffer_view_release st11 ret0
  match iree_hal_buffer_view_allocate_buffer_copy st12
      (iree_runtime_session_device hip_session)
      (iree_runtime_session_device_allocator hip_session)
      [4] .float32 .denseRowMajor demo_buffer_params
      (iree_make_const_byte_span [2000, 200, 20, 2] 16) with
  | (.error e, st) => (.error e, st)
  | (.ok arg2, st13) =>
  match iree_runtime_call_inputs_push_back_buffer_view st13 hip_call1 arg2 with
  | (.error e, _, st) => (.error e, st)
  | (.ok _, hip_call2, st14) =>
  let st15 := iree_hal_buffer_view_release st14 arg2
  match iree_runtime_call_invoke st15 hip_call2 0 with
  | (.error e, _, st) => (.error e, st)
  | (.ok _, hip_call3, st16) =>
  match iree_runtime_call_outputs_pop_front_buffer_view st16 hip_call3 with
  | (.error e, _, st) => (.error e, st)
  | (.ok ret1, hip_call4, st17) =>
  match iree_hal_device_transfer_d2h st17 (iree_runtime_session_device hip_session)
      ret1 0 16 IREE_HAL_TRANSFER_BUFFER_FLAG_DEFAULT iree_infinite_timeout with
  | .error e => (.error e, st17)
  | .ok results =>
  let st18 := iree_hal_buffer_view_release st17 ret1
  let st19 := iree_runtime_call_deinitialize st18 hip_call4
  (.ok (ret0_data.values, results.values), st19)

/-- The demo's session setup `iree_runtime_demo_run_session`, embedded call
for call from the C source (lines 42-95): create the "local-task" and "hip"
devices, one session per device (releasing the caller device handles), load
the module into each, run the dual pipeline, release the sessions. -/
def iree_runtime_demo_run_session (st0 : RtState) (inst : RuntimeInstance) :
    (Except ErrorKind (List ℚ × List ℚ)) × RtState :=
  match iree_runtime_instance_try_create_default_device st0 inst "local-task" with
  | (.error e, st) => (.error e, st)
  | (.ok device, st1) =>
  match iree_runtime_instance_try_create_default_device st1 inst "hip" with
  | (.error e, st) => (.error e, st)
  | (.ok hip_device, st2) =>
  match iree_runtime_session_create_with_device st2 inst device with
  | (.error e, st) => (.error e, st)
  | (.ok session0, st3) =>
  let st4 := iree_hal_device_release st3 device
  match iree_runtime_session_create_with_device st4 inst hip_device with
  | (.error e, st) => (.error e, st)
  | (.ok hip_session0, st5) =>
  let st6 := iree_hal_device_release st5 hip_device
  match iree_runtime_session_append_bytecode_module_from_memory session0
      iree_runtime_demo_simple_mul_module_create with
  | .error e => (.error e, st6)
  | .ok session1 =>
  match iree_runtime_session_append_bytecode_module_from_memory hip_session0
      iree_runtime_demo_simple_mul_module_hip_create with
  | .error e => (.error e, st6)
  | .ok hip_session1 =>
  let (r, st7) := iree_runtime_demo_perform_mul_dual st6 session1 hip_session1
  let st8 := iree_runtime_session_release st7 session1
  let st9 := iree_runtime_session_release st8 hip_session1
  (r, st9)

/-- Every element type has a positive byte size. -/
theorem ElementType.byteSize_pos (et : ElementType) : 0 < et.byteSize := by
  cases et <;> decide

/-- Reading a reference count at the updated id yields the new value. -/
theorem setCount_same (f : Nat → Nat) (i v : Nat) : setCount f i v i = v := by
  simp [setCount]

/-- Reading a reference count away from the updated id is unchanged. -/
theorem setCount_other (f : Nat → Nat) (i v j : Nat) (h : j ≠ i) :
    setCount f i v j = f j := by
  simp [setCount, h]

/-- Releasing a list of buffer views leaves the reference count of every id
not in the list unchanged. -/
theorem releaseAll_frame (l : List BufferView) (st : RtState) (i : Nat)
    (h : i ∉ l.map BufferView.id) : (releaseAll st l).refcount i = st.refcount i := by
  induction l generalizing st with
  | nil => rfl
  | cons bv rest ih =>
    simp only [List.map_cons, List.mem_cons] at h
    push_neg at h
    rw [releaseAll, ih _ h.2, releaseId]
    exact setCount_other _ _ _ _ h.1

/-- C1: the two-device demo pipeline, run from the empty heap on an instance
with both backends available, succeeds; the Device A (local-task) call over
`[1.0, 1.1, 1.2, 1.3]` and `[10, 100, 1000, 10000]` relays
`[10.0, 110.0, 1200.0, 13000.0]` to Device B (hip), and the Device B call
against `[2000, 200, 20, 2]` reads back
`[20000.0, 22000.0, 24000.0, 26000.0]`. -/
theorem demo_two_device_pipeline_results :
    (iree_runtime_demo_run_session RtState.initial demo_instance).fst =
      .ok ([10, 110, 1200, 13000], [20000, 22000, 24000, 26000]) := by
  norm_num [iree_runtime_demo_run_session, iree_runtime_demo_perform_mul_dual,
    iree_runtime_instance_try_create_default_device,
    iree_runtime_session_create_with_device,
    iree_runtime_session_append_bytecode_module_from_memory,
    iree_runtime_session_release, iree_runtime_session_device,
    iree_runtime_session_device_allocator,
    iree_runtime_call_initialize_by_name,
    iree_runtime_call_inputs_push_back_buffer_view,
    iree_runtime_call_invoke, iree_runtime_call_outputs_pop_front_buffer_view,
    iree_runtime_call_deinitialize, iree_hal_buffer_view_allocate_buffer_copy,
    iree_hal_buffer_view_release, iree_hal_device_release,
    iree_hal_device_transfer_d2h, iree_make_const_byte_span,
    iree_infinite_timeout, IREE_HAL_TRANSFER_BUFFER_FLAG_DEFAULT,
    iree_runtime_demo_simple_mul_module_create,
    iree_runtime_demo_simple_mul_module_hip_create,
    demo_instance, demo_buffer_params, simple_mul_sig, simple_mul_impl,
    sigMatches, allocOutputs, allocId, retainId, releaseId, releaseAll,
    setCount, RtState.initial, BufferView.byteSize, ElementType.byteSize,
    List.find?, List.all, List.prod]

/-- C2: for every shape, element type and host data whose byte length equals
the product of the shape dimensions times the element size (and whose
element count is consistent with that byte length), `allocate_buffer_copy`
succeeds, and a device-to-host transfer of the full region returns exactly
the original host data. -/
theorem allocate_buffer_copy_round_trip (st : RtState) (dev adev : Device)
    (shape : List Nat) (et : ElementType) (enc : EncodingType)
    (params : BufferParams) (span : HostSpan) (flags : Nat) (tmo : TimeoutSpec)
    (hwf : span.values.length * et.byteSize = span.byteLength)
    (hlen : span.byteLength = shape.prod * et.byteSize) :
    (iree_hal_buffer_view_allocate_buffer_copy st dev adev shape et enc params
        span).fst = .ok ⟨st.nextId, dev.id, shape, et, span.values⟩ ∧
    iree_hal_device_transfer_d2h
        (iree_hal_buffer_view_allocate_buffer_copy st dev adev shape et enc
          params span).snd
        dev ⟨st.nextId, dev.id, shape, et, span.values⟩ 0 span.byteLength
        flags tmo = .ok ⟨span.values, span.byteLength⟩ := by
  have hdiv : span.byteLength / et.byteSize = span.values.length := by
    rw [← hwf]
    exact Nat.mul_div_cancel _ (ElementType.byteSize_pos et)
  constructor
  · simp [iree_hal_buffer_view_allocate_buffer_copy, hlen, allocId]
  · simp [iree_hal_buffer_view_allocate_buffer_copy, hlen, allocId,
      iree_hal_device_transfer_d2h, setCount, BufferView.byteSize, hdiv,
      List.take_length]
    exact le_of_eq (by rw [← hlen, hdiv])

/-- C2 witness: round trip on shape `[2]`, float32, host data of 8 bytes. -/
theorem allocate_buffer_copy_round_trip_plug :
    ((⟨[1, 2], 8⟩ : HostSpan).values.length * ElementType.float32.byteSize
        = (⟨[1, 2], 8⟩ : HostSpan).byteLength) ∧
    ((⟨[1, 2], 8⟩ : HostSpan).byteLength
        = [2].prod * ElementType.float32.byteSize) ∧
    ((iree_hal_buffer_view_allocate_buffer_copy RtState.initial
        ⟨0, "local-task"⟩ ⟨0, "local-task"⟩ [2] .float32 .denseRowMajor
        ⟨.deviceLocal, .all, .default⟩ ⟨[1, 2], 8⟩).fst
        = .ok ⟨0, 0, [2], .float32, [1, 2]⟩ ∧
      iree_hal_device_transfer_d2h
        (iree_hal_buffer_view_allocate_buffer_copy RtState.initial
          ⟨0, "local-task"⟩ ⟨0, "local-task"⟩ [2] .float32 .denseRowMajor
          ⟨.deviceLocal, .all, .default⟩ ⟨[1, 2], 8⟩).snd
        ⟨0, "local-task"⟩ ⟨0, 0, [2], .float32, [1, 2]⟩ 0 8 0 .infinite
        = .ok ⟨[1, 2], 8⟩) :=
  ⟨by decide, by decide,
    allocate_buffer_copy_round_trip RtState.initial ⟨0, "local-task"⟩
      ⟨0, "local-task"⟩ [2] .float32 .denseRowMajor
      ⟨.deviceLocal, .all, .default⟩ ⟨[1, 2], 8⟩ 0 .infinite
      (by decide) (by decide)⟩

/-- C3: whenever the host data byte length differs from the computed storage
size (shape product times element size), `allocate_buffer_copy` fails with
`SizeMismatch` and leaves the heap exactly as it was — no storage is
allocated. -/
theorem allocate_buffer_copy_size_mismatch (st : RtState) (dev adev : Device)
    (shape : List Nat) (et : ElementType) (enc : EncodingType)
    (params : BufferParams) (span : HostSpan)
    (h : span.byteLength ≠ shape.prod * et.byteSize) :
    iree_hal_buffer_view_allocate_buffer_copy st dev adev shape et enc params
        span = (.error .sizeMismatch, st) := by
  simp [iree_hal_buffer_view_allocate_buffer_copy, h]

/-- C3 witness: 12 host bytes against a `[2] x float32` buffer (8 bytes)
fail with a size mismatch and an unchanged heap. -/
theorem allocate_buffer_copy_size_mismatch_plug :
    ((⟨[1, 2, 3], 12⟩ : HostSpan).byteLength
        ≠ [2].prod * ElementType.float32.byteSize) ∧
    iree_hal_buffer_view_allocate_buffer_copy RtState.initial
        ⟨0, "local-task"⟩ ⟨0, "local-task"⟩ [2] .float32 .denseRowMajor
        ⟨.deviceLocal, .all, .default⟩ ⟨[1, 2, 3], 12⟩
      = (.error .sizeMismatch, RtState.initial) :=
  ⟨by decide,
    allocate_buffer_copy_size_mismatch RtState.initial ⟨0, "local-task"⟩
      ⟨0, "local-task"⟩ [2] .float32 .denseRowMajor
      ⟨.deviceLocal, .all, .default⟩ ⟨[1, 2, 3], 12⟩ (by decide)⟩

/-- C7: resolving a backend name that is not in the instance's driver
registry returns a recoverable `NotFound` error and leaves the heap
untouched — no crash, no partial allocation — so further device kinds can
still be queried on the same instance. -/
theorem try_create_default_device_not_found (st : RtState)
    (inst : RuntimeInstance) (name : String) (h : name ∉ inst.drivers) :
    iree_runtime_instance_try_create_default_device st inst name
      = (.error .notFound, st) := by
  simp [iree_runtime_instance_try_create_default_device, h]

/-- C7 witness: "vulkan" is absent from the demo instance's registry and
yields `NotFound` with the heap unchanged. -/
theorem try_create_default_device_not_found_plug :
    "vulkan" ∉ demo_instance.drivers ∧
    iree_runtime_instance_try_create_default_device RtState.initial
        demo_instance "vulkan" = (.error .notFound, RtState.initial) :=
  ⟨by decide,
    try_create_default_device_not_found RtState.initial demo_instance
      "vulkan" (by decide)⟩

/-- C4: pushing a buffer view bound to Session A's device directly into a
call on Session B (a different device) fails, as does pushing into any
already-invoked call; relaying the same view instead — device-to-host
transfer out of A, buffer-view allocation on B's device — succeeds, and the
re-allocated view pushes into the call on B. -/
theorem push_input_device_mismatch_and_relay (st : RtState) (sA sB : Session)
    (c : Call) (bv : BufferView) (enc : EncodingType) (params : BufferParams)
    (flags : Nat) (tmo : TimeoutSpec)
    (hc : c.device = sB.device.id)
    (hbv : bv.device = sA.device.id)
    (hne : sA.device.id ≠ sB.device.id)
    (hinv : c.invoked = false)
    (hlive : 0 < st.refcount bv.id)
    (hwf : bv.storage.length = bv.shape.prod) :
    (iree_runtime_call_inputs_push_back_buffer_view st c bv).fst
        = .error .invalidArgument ∧
    (iree_runtime_call_inputs_push_back_buffer_view st
        { c with invoked := true } bv).fst = .error .invalidArgument ∧
    iree_hal_device_transfer_d2h st sA.device bv 0 bv.byteSize flags tmo
        = .ok ⟨bv.storage, bv.byteSize⟩ ∧
    (iree_hal_buffer_view_allocate_buffer_copy st sB.device sB.device bv.shape
        bv.elementType enc params ⟨bv.storage, bv.byteSize⟩).fst
        = .ok ⟨st.nextId, sB.device.id, bv.shape, bv.elementType, bv.storage⟩ ∧
    (iree_runtime_call_inputs_push_back_buffer_view
        (iree_hal_buffer_view_allocate_buffer_copy st sB.device sB.device
          bv.shape bv.elementType enc params ⟨bv.storage, bv.byteSize⟩).snd
        c ⟨st.nextId, sB.device.id, bv.shape, bv.elementType, bv.storage⟩).fst
        = .ok () := by
  have hdiv : bv.byteSize / bv.elementType.byteSize = bv.storage.length := by
    rw [BufferView.byteSize, ← hwf]
    exact Nat.mul_div_cancel _ (ElementType.byteSize_pos bv.elementType)
  have hdne : bv.device ≠ c.device := by
    rw [hbv, hc]; exact hne
  refine ⟨?_, ?_, ?_, ?_, ?_⟩
  · simp [iree_runtime_call_inputs_push_back_buffer_view, hinv, hdne]
  · simp [iree_runtime_call_inputs_push_back_buffer_view]
  · simp [iree_hal_device_transfer_d2h, hlive, hbv, hdiv, List.take_length]
  · simp [iree_hal_buffer_view_allocate_buffer_copy, BufferView.byteSize,
      allocId]
  · simp [iree_runtime_call_inputs_push_back_buffer_view, hinv, hc]

/-- C4 witness: a live `[4] x float32` view on device 0 cannot be pushed
into a call bound to device 1, nor into an invoked call; its relay through
host memory onto device 1 pushes successfully. -/
theorem push_input_device_mismatch_and_relay_plug :
    ((⟨1, simple_mul_sig, [], [], false⟩ : Call).device
        = (⟨⟨1, "hip"⟩, []⟩ : Session).device.id ∧
      (⟨2, 0, [4], .float32, [10, 110, 1200, 13000]⟩ : BufferView).device
        = (⟨⟨0, "local-task"⟩, []⟩ : Session).device.id ∧
      (⟨⟨0, "local-task"⟩, []⟩ : Session).device.id
        ≠ (⟨⟨1, "hip"⟩, []⟩ : Session).device.id ∧
      (⟨1, simple_mul_sig, [], [], false⟩ : Call).invoked = false ∧
      0 < (⟨setCount (fun _ => 0) 2 1, 3⟩ : RtState).refcount 2 ∧
      (⟨2, 0, [4], .float32, [10, 110, 1200, 13000]⟩ : BufferView).storage.length
        = (⟨2, 0, [4], .float32, [10, 110, 1200, 13000]⟩ : BufferView).shape.prod) ∧
    (iree_runtime_call_inputs_push_back_buffer_view
        ⟨setCount (fun _ => 0) 2 1, 3⟩ ⟨1, simple_mul_sig, [], [], false⟩
        ⟨2, 0, [4], .float32, [10, 110, 1200, 13000]⟩).fst
      = .error .invalidArgument :=
  ⟨⟨rfl, rfl, by decide, rfl, by decide, by decide⟩,
    (push_input_device_mismatch_and_relay ⟨setCount (fun _ => 0) 2 1, 3⟩
      ⟨⟨0, "local-task"⟩, []⟩ ⟨⟨1, "hip"⟩, []⟩
      ⟨1, simple_mul_sig, [], [], false⟩
      ⟨2, 0, [4], .float32, [10, 110, 1200, 13000]⟩ .denseRowMajor
      ⟨.deviceLocal, .all, .default⟩ 0 .infinite rfl rfl (by decide) rfl
      (by decide) (by decide)).1⟩

/-- One iteration step of `popAll`, stated through projections. -/
theorem popAll_fst_succ (st : RtState) (c : Call) (n : Nat) :
    (popAll st c (n + 1)).fst
      = (iree_runtime_call_outputs_pop_front_buffer_view st c).fst ::
        (popAll (iree_runtime_call_outputs_pop_front_buffer_view st c).snd.snd
          (iree_runtime_call_outputs_pop_front_buffer_view st c).snd.fst
          n).fst := rfl

/-- C5: iterating `pop_output` once more than the number of populated
outputs returns every output in function-declared order and then fails with
`ResourceExhausted` on the extra pop. -/
theorem pop_output_order_and_exhausted (st : RtState) (c : Call) :
    (popAll st c (c.outputs.length + 1)).fst =
      c.outputs.map Except.ok ++ [Except.error .resourceExhausted] := by
  have key : ∀ (l : List BufferView) (st : RtState) (c : Call),
      c.outputs = l →
      (popAll st c (l.length + 1)).fst =
        l.map Except.ok ++ [Except.error .resourceExhausted] := by
    intro l
    induction l with
    | nil =>
      intro st c h
      simp [popAll, iree_runtime_call_outputs_pop_front_buffer_view, h]
    | cons o rest ih =>
      intro st c h
      have hpop : iree_runtime_call_outputs_pop_front_buffer_view st c
          = (.ok o, { c with outputs := rest }, st) := by
        simp [iree_runtime_call_outputs_pop_front_buffer_view, h]
      rw [List.length_cons, popAll_fst_succ, hpop]
      rw [ih st { c with outputs := rest } rfl]
      simp
  exact key c.outputs st c rfl

/-- C6: when `invoke` fails on a call whose output list is empty, the error
is `InvalidArgument` (signature mismatch) or `Internal` (backend fault), the
output list stays empty, and the heap is untouched — no output storage was
materialized. -/
theorem invoke_failure_outputs_empty (st : RtState) (c : Call) (flags : Nat)
    (e : ErrorKind) (hout : c.outputs = [])
    (herr : (iree_runtime_call_invoke st c flags).fst = .error e) :
    (e = .invalidArgument ∨ e = .internal) ∧
      (iree_runtime_call_invoke st c flags).snd.fst.outputs = [] ∧
      (iree_runtime_call_invoke st c flags).snd.snd = st := by
  unfold iree_runtime_call_invoke at herr ⊢
  by_cases hm : sigMatches c.inputs c.sig.args
  · rw [if_pos hm] at herr ⊢
    cases himp : c.sig.impl (c.inputs.map fun bv => bv.storage) with
    | none => simp [himp] at herr ⊢; exact ⟨Or.inr herr.symm, hout⟩
    | some rs => simp [himp] at herr
  · rw [if_neg hm] at herr ⊢
    simp at herr ⊢
    exact ⟨Or.inl herr.symm, hout⟩

/-- C6 witness: invoking `simple_mul` with zero pushed inputs fails with
`InvalidArgument`, keeps the outputs empty and the heap unchanged. -/
theorem invoke_failure_outputs_empty_plug :
    ((⟨0, simple_mul_sig, [], [], false⟩ : Call).outputs = [] ∧
      (iree_runtime_call_invoke RtState.initial
        ⟨0, simple_mul_sig, [], [], false⟩ 0).fst
        = .error .invalidArgument) ∧
    ((ErrorKind.invalidArgument = .invalidArgument ∨
        ErrorKind.invalidArgument = .internal) ∧
      (iree_runtime_call_invoke RtState.initial
        ⟨0, simple_mul_sig, [], [], false⟩ 0).snd.fst.outputs = [] ∧
      (iree_runtime_call_invoke RtState.initial
        ⟨0, simple_mul_sig, [], [], false⟩ 0).snd.snd = RtState.initial) :=
  ⟨⟨rfl, rfl⟩,
    invoke_failure_outputs_empty RtState.initial
      ⟨0, simple_mul_sig, [], [], false⟩ 0 .invalidArgument rfl rfl⟩

/-- C8: pushing a buffer view the caller holds with one reference succeeds,
the view lands in the call's input list, and after the caller releases its
own reference immediately the view is still held live (count one) by the
call machinery for the subsequent invoke. -/
theorem push_input_ownership_transfer (st : RtState) (c : Call)
    (bv : BufferView) (hinv : c.invoked = false) (hdev : bv.device = c.device)
    (hrc : st.refcount bv.id = 1) :
    (iree_runtime_call_inputs_push_back_buffer_view st c bv).fst = .ok () ∧
    bv ∈ (iree_runtime_call_inputs_push_back_buffer_view st c bv).snd.fst.inputs ∧
    (iree_hal_buffer_view_release
        (iree_runtime_call_inputs_push_back_buffer_view st c bv).snd.snd
        bv).refcount bv.id = 1 := by
  refine ⟨?_, ?_, ?_⟩
  · simp [iree_runtime_call_inputs_push_back_buffer_view, hinv, hdev]
  · simp [iree_runtime_call_inputs_push_back_buffer_view, hinv, hdev]
  · simp [iree_runtime_call_inputs_push_back_buffer_view, hinv, hdev,
      iree_hal_buffer_view_release, retainId, releaseId, setCount, hrc]

/-- C8 witness: a view with a single caller reference pushed into a fresh
matching call stays live with count one after the caller's release. -/
theorem push_input_ownership_transfer_plug :
    ((⟨0, simple_mul_sig, [], [], false⟩ : Call).invoked = false ∧
      (⟨1, 0, [4], .float32, [1, 2, 3, 4]⟩ : BufferView).device
        = (⟨0, simple_mul_sig, [], [], false⟩ : Call).device ∧
      (⟨setCount (fun _ => 0) 1 1, 2⟩ : RtState).refcount 1 = 1) ∧
    (iree_hal_buffer_view_release
        (iree_runtime_call_inputs_push_back_buffer_view
          ⟨setCount (fun _ => 0) 1 1, 2⟩ ⟨0, simple_mul_sig, [], [], false⟩
          ⟨1, 0, [4], .float32, [1, 2, 3, 4]⟩).snd.snd
        ⟨1, 0, [4], .float32, [1, 2, 3, 4]⟩).refcount 1 = 1 :=
  ⟨⟨rfl, rfl, by decide⟩,
    (push_input_ownership_transfer ⟨setCount (fun _ => 0) 1 1, 2⟩
      ⟨0, simple_mul_sig, [], [], false⟩
      ⟨1, 0, [4], .float32, [1, 2, 3, 4]⟩ rfl rfl (by decide)).2.2⟩

/-- C9: deinitializing a call after popping an output releases only the
references the call still retains — the remaining inputs and outputs; every
id outside those lists keeps its reference count, so the popped output stays
live and is still readable by a full device-to-host transfer afterwards. -/
theorem deinit_releases_only_unconsumed (st : RtState) (c : Call)
    (o : BufferView) (rest : List BufferView) (dev : Device) (flags : Nat)
    (tmo : TimeoutSpec)
    (hout : c.outputs = o :: rest)
    (hnotin : o.id ∉ (c.inputs ++ rest).map BufferView.id)
    (hlive : 0 < st.refcount o.id)
    (hdev : o.device = dev.id)
    (hwf : o.storage.length = o.shape.prod) :
    (iree_runtime_call_outputs_pop_front_buffer_view st c).fst = .ok o ∧
    (∀ i, i ∉ (c.inputs ++ rest).map BufferView.id →
      ( iree_runtime_call_deinitialize st
          (iree_runtime_call_outputs_pop_front_buffer_view st c).snd.fst
        ).refcount i = st.refcount i) ∧
    0 < ( iree_runtime_call_deinitialize st
          (iree_runtime_call_outputs_pop_front_buffer_view st c).snd.fst
        ).refcount o.id ∧
    iree_hal_device_transfer_d2h
        ( iree_runtime_call_deinitialize st
          (iree_runtime_call_outputs_pop_front_buffer_view st c).snd.fst)
        dev o 0 o.byteSize flags tmo = .ok ⟨o.storage, o.byteSize⟩ := by
  have hpop : iree_runtime_call_outputs_pop_front_buffer_view st c
      = (.ok o, { c with outputs := rest }, st) := by
    simp [iree_runtime_call_outputs_pop_front_buffer_view, hout]
  have hframe : ∀ i, i ∉ (c.inputs ++ rest).map BufferView.id →
      ( iree_runtime_call_deinitialize st
          (iree_runtime_call_outputs_pop_front_buffer_view st c).snd.fst
        ).refcount i = st.refcount i := by
    intro i hi
    rw [hpop]
    exact releaseAll_frame _ _ _ hi
  have holive : 0 < ( iree_runtime_call_deinitialize st
      (iree_runtime_call_outputs_pop_front_buffer_view st c).snd.fst
    ).refcount o.id := by
    rw [hframe o.id hnotin]
    exact hlive
  have hdiv : o.byteSize / o.elementType.byteSize = o.storage.length := by
    rw [BufferView.byteSize, ← hwf]
    exact Nat.mul_div_cancel _ (ElementType.byteSize_pos o.elementType)
  refine ⟨by rw [hpop], hframe, holive, ?_⟩
  simp [iree_hal_device_transfer_d2h, holive, hdev, hdiv, List.take_length]

/-- C9 witness: after popping the only output of a call with one remaining
input, deinitializing the call leaves the popped view live and a full
transfer of it still returns its contents. -/
theorem deinit_releases_only_unconsumed_plug :
    ((⟨0, simple_mul_sig, [⟨1, 0, [4], .float32, [1, 2, 3, 4]⟩],
        [⟨2, 0, [4], .float32, [10, 110, 1200, 13000]⟩], true⟩ : Call).outputs
        = ⟨2, 0, [4], .float32, [10, 110, 1200, 13000]⟩ :: [] ∧
      0 < (⟨setCount (setCount (fun _ => 0) 1 1) 2 1, 3⟩ : RtState).refcount 2) ∧
    iree_hal_device_transfer_d2h
        ( iree_runtime_call_deinitialize
            ⟨setCount (setCount (fun _ => 0) 1 1) 2 1, 3⟩
            (iree_runtime_call_outputs_pop_front_buffer_view
              ⟨setCount (setCount (fun _ => 0) 1 1) 2 1, 3⟩
              ⟨0, simple_mul_sig, [⟨1, 0, [4], .float32, [1, 2, 3, 4]⟩],
                [⟨2, 0, [4], .float32, [10, 110, 1200, 13000]⟩], true⟩).snd.fst)
        ⟨0, "local-task"⟩ ⟨2, 0, [4], .float32, [10, 110, 1200, 13000]⟩ 0
        (⟨2, 0, [4], .float32, [10, 110, 1200, 13000]⟩ : BufferView).byteSize
        0 .infinite
      = .ok ⟨[10, 110, 1200, 13000],
          (⟨2, 0, [4], .float32, [10, 110, 1200, 13000]⟩ : BufferView).byteSize⟩ :=
  ⟨⟨rfl, by decide⟩,
    (deinit_releases_only_unconsumed
      ⟨setCount (setCount (fun _ => 0) 1 1) 2 1, 3⟩
      ⟨0, simple_mul_sig, [⟨1, 0, [4], .float32, [1, 2, 3, 4]⟩],
        [⟨2, 0, [4], .float32, [10, 110, 1200, 13000]⟩], true⟩
      ⟨2, 0, [4], .float32, [10, 110, 1200, 13000]⟩ []
      ⟨0, "local-task"⟩ 0 .infinite rfl (by decide) (by decide) rfl
      (by decide)).2.2.2⟩

/-- C10: creating a session with a device retains a session-owned device
reference, so after the caller releases its own handle the device is still
live, the session accessors still return that device, and only releasing
the session drops the last reference. -/
theorem session_retains_device (st : RtState) (inst : RuntimeInstance)
    (d : Device) (hrc : st.refcount d.id = 1) :
    iree_runtime_session_create_with_device st inst d
        = (.ok ⟨d, []⟩, retainId st d.id) ∧
    iree_runtime_session_device ⟨d, []⟩ = d ∧
    iree_runtime_session_device_allocator ⟨d, []⟩ = d ∧
    (iree_hal_device_release (retainId st d.id) d).refcount d.id = 1 ∧
    (iree_runtime_session_release (iree_hal_device_release (retainId st d.id) d)
        ⟨d, []⟩).refcount d.id = 0 := by
  refine ⟨rfl, rfl, rfl, ?_, ?_⟩
  · simp [iree_hal_device_release, retainId, releaseId, setCount, hrc]
  · simp [iree_runtime_session_release, iree_hal_device_release, retainId,
      releaseId, setCount, hrc]

/-- C10 witness: a device with one caller reference stays live across
session creation and caller release, and dies only with the session. -/
theorem session_retains_device_plug :
    ((⟨setCount (fun _ => 0) 0 1, 1⟩ : RtState).refcount
        (⟨0, "local-task"⟩ : Device).id = 1) ∧
    ((iree_hal_device_release
        (retainId ⟨setCount (fun _ => 0) 0 1, 1⟩
          (⟨0, "local-task"⟩ : Device).id)
        ⟨0, "local-task"⟩).refcount (⟨0, "local-task"⟩ : Device).id = 1 ∧
      (iree_runtime_session_release
        (iree_hal_device_release
          (retainId ⟨setCount (fun _ => 0) 0 1, 1⟩
            (⟨0, "local-task"⟩ : Device).id)
          ⟨0, "local-task"⟩)
        ⟨⟨0, "local-task"⟩, []⟩).refcount (⟨0, "local-task"⟩ : Device).id = 0) :=
  ⟨by decide,
    ⟨(session_retains_device ⟨setCount (fun _ => 0) 0 1, 1⟩ demo_instance
        ⟨0, "local-task"⟩ (by decide)).2.2.2.1,
      (session_retains_device ⟨setCount (fun _ => 0) 0 1, 1⟩ demo_instance
        ⟨0, "local-task"⟩ (by decide)).2.2.2.2⟩⟩

end IREE
